/-
Verification of the Speza transaction store and aggregator (src/app.py).

The program keeps all transactions in one CSV file with columns
Date, Type, Category, Amount, Note.  Every operation loads the whole
file into a data frame, possibly mutates it, and rewrites the file in
full.  We embed a transaction as a record whose `amount` field is a
rational number (the parsed float; rationals stand in for IEEE floats,
whose rounding plays no role in any claim), and the CSV file contents
as a list of such records.
-/
import Mathlib

namespace Speza

/-- A stored transaction row: the five CSV columns of src/app.py
(Date, Type, Category, Amount, Note).  `Amount` is stored parsed. -/
structure Transaction where
  date : String
  type_ : String
  category : String
  amount : ℚ
  note : String
deriving Repr, DecidableEq

/-- The rows of the CSV data file, in file order. -/
abbrev Store := List Transaction

/-! ### Python `float` parsing

`add_expense` and `edit_transaction` call the Python builtin
`float(amount)` on the raw form string.  We model the numeric-literal
subset of that builtin: optional surrounding whitespace, an optional
sign, a mantissa of digits with an optional decimal point (at least one
digit overall), and an optional `e`/`E` exponent.  Strings outside this
subset are rejected, exactly as `float` raises `ValueError`. -/

/-- The natural number denoted by a list of decimal digit characters. -/
def digitsToNat (cs : List Char) : ℕ :=
  cs.foldl (fun a c => 10 * a + (c.toNat - 48)) 0

/-- `true` iff `cs` is a nonempty run of decimal digits. -/
def isDigits (cs : List Char) : Bool :=
  !cs.isEmpty && cs.all Char.isDigit

/-- A signed decimal integer (for the exponent part of a float literal). -/
def parseSignedInt : List Char → Option ℤ
  | '+' :: rest => if isDigits rest then some (digitsToNat rest : ℤ) else none
  | '-' :: rest => if isDigits rest then some (-(digitsToNat rest : ℤ)) else none
  | rest => if isDigits rest then some (digitsToNat rest : ℤ) else none

/-- The optional exponent suffix of a float literal: empty means 10^0. -/
def parseExp : List Char → Option ℤ
  | [] => some 0
  | 'e' :: rest => parseSignedInt rest
  | 'E' :: rest => parseSignedInt rest
  | _ => none

/-- An unsigned float literal: digits, optionally with a decimal point
(`12`, `12.`, `12.5`, `.5`), followed by an optional exponent. -/
def parseUnsigned (cs : List Char) : Option ℚ :=
  let intPart := cs.takeWhile Char.isDigit
  let rest1 := cs.dropWhile Char.isDigit
  match rest1 with
  | '.' :: rest2 =>
      let fracPart := rest2.takeWhile Char.isDigit
      let rest3 := rest2.dropWhile Char.isDigit
      if intPart.isEmpty && fracPart.isEmpty then none
      else
        (parseExp rest3).map fun e =>
          ((digitsToNat intPart : ℚ) +
            (digitsToNat fracPart : ℚ) / (10 : ℚ) ^ fracPart.length) * (10 : ℚ) ^ e
  | _ =>
      if intPart.isEmpty then none
      else (parseExp rest1).map fun e => (digitsToNat intPart : ℚ) * (10 : ℚ) ^ e

/-- The whitespace stripping `float` applies to its argument (ASCII
whitespace, code points ≤ 32). -/
def trimChars (cs : List Char) : List Char :=
  ((cs.dropWhile fun c => c.toNat ≤ 32).reverse.dropWhile fun c => c.toNat ≤ 32).reverse

/-- Model of Python `float(s)`: `some q` when `s` is a numeric literal
with value `q`, `none` when `float` raises `ValueError`. -/
def pyFloat? (s : String) : Option ℚ :=
  match trimChars s.data with
  | '+' :: rest => parseUnsigned rest
  | '-' :: rest => (parseUnsigned rest).map Neg.neg
  | cs => parseUnsigned cs

/-! ### Date parsing and month bucketing

The dashboard runs `pd.to_datetime(df["Date"], errors="coerce")` and then
`dt.strftime("%b %Y")`.  We model the ISO `YYYY-MM-DD` input format (the
format produced by the HTML date field the rows are entered through):
a date parses when it has that shape with a valid month and a valid
day-of-month (pandas coerces impossible dates such as `2024-02-30` to
`NaT`); any other string is coerced to an absent value.  A parsed date
is bucketed by its `"%b %Y"` label, e.g. `"Jan 2024"`. -/

/-- Leap-year rule used by the day-of-month validity check. -/
def isLeap (y : ℕ) : Bool :=
  (y % 4 == 0 && y % 100 != 0) || y % 400 == 0

/-- Number of days in month `m` of year `y` (months numbered 1..12). -/
def daysInMonth (y m : ℕ) : ℕ :=
  if m == 2 then (if isLeap y then 29 else 28)
  else if m == 4 || m == 6 || m == 9 || m == 11 then 30
  else 31

/-- Model of `pd.to_datetime(s, errors="coerce")` on ISO dates, reduced
to the data the dashboard uses: `some (year, month)` when the string is
a valid `YYYY-MM-DD` date, `none` (pandas `NaT`) otherwise. -/
def parseDate? (s : String) : Option (ℕ × ℕ) :=
  match s.toList with
  | [y1, y2, y3, y4, '-', m1, m2, '-', d1, d2] =>
      if [y1, y2, y3, y4, m1, m2, d1, d2].all Char.isDigit then
        let y := digitsToNat [y1, y2, y3, y4]
        let m := digitsToNat [m1, m2]
        let d := digitsToNat [d1, d2]
        if 1 ≤ m ∧ m ≤ 12 ∧ 1 ≤ d ∧ d ≤ daysInMonth y m then some (y, m) else none
      else none
  | _ => none

/-- `strftime("%b")`: the English three-letter month abbreviation. -/
def monthAbbrev (m : ℕ) : String :=
  match m with
  | 1 => "Jan" | 2 => "Feb" | 3 => "Mar" | 4 => "Apr"
  | 5 => "May" | 6 => "Jun" | 7 => "Jul" | 8 => "Aug"
  | 9 => "Sep" | 10 => "Oct" | 11 => "Nov" | 12 => "Dec"
  | _ => ""

/-- The `"%b %Y"` month bucket label of a transaction, `none` when its
date fails to parse (the row then drops out of the monthly group-by). -/
def month_of (t : Transaction) : Option String :=
  (parseDate? t.date).map fun p => monthAbbrev p.2 ++ " " ++ toString p.1

/-! ### Lexicographic string order

`df.groupby(["Month", "Type"])` sorts its group keys (the pandas
default `sort=True`); Python compares strings lexicographically by
Unicode code point.  We model that comparison. -/

/-- Code-point lexicographic `≤` on character lists. -/
def lexLe : List Char → List Char → Bool
  | [], _ => true
  | _ :: _, [] => false
  | a :: as, b :: bs =>
    if a.toNat < b.toNat then true
    else if b.toNat < a.toNat then false
    else lexLe as bs

/-- Python string `≤`: code-point lexicographic order. -/
def strLeRel (a b : String) : Prop := lexLe a.data b.data = true

instance : DecidableRel strLeRel := fun _ _ => instDecidableEqBool _ _

/-! ### Dashboard aggregates (src/app.py lines 61-133) -/

/-- `df.loc[df["Type"] == "Income", "Amount"].sum()` (line 69). -/
def total_income (df : Store) : ℚ :=
  ((df.filter fun t => t.type_ == "Income").map Transaction.amount).sum

/-- `df.loc[df["Type"] == "Expense", "Amount"].sum()` (line 70). -/
def total_expense (df : Store) : ℚ :=
  ((df.filter fun t => t.type_ == "Expense").map Transaction.amount).sum

/-- `balance = total_income - total_expense` (line 71). -/
def balance (df : Store) : ℚ := total_income df - total_expense df

/-- The mood status string chosen at lines 74-79. -/
def mood_status (ti te : ℚ) : String :=
  if te > ti then "bad"
  else if |ti - te| < 2000 then "neutral"
  else "good"

/-- The mood the dashboard reports for a loaded data frame. -/
def dashboard_mood (df : Store) : String :=
  mood_status (total_income df) (total_expense df)

/-- `exp_df = df[df["Type"] == "Expense"]` (line 82). -/
def exp_df (df : Store) : Store := df.filter fun t => t.type_ == "Expense"

/-- The pie chart's category → summed amount data (lines 82-105):
`px.pie` groups `exp_df` by `Category` and sums `Amount`; when there
are no expense rows, no chart data is produced. -/
def category_breakdown (df : Store) : List (String × ℚ) :=
  ((exp_df df).map Transaction.category).dedup.map fun c =>
    (c, (((exp_df df).filter fun t => t.category == c).map Transaction.amount).sum)

/-- The month labels of the rows whose date parses, in row order. -/
def parsedMonths (df : Store) : List String := df.filterMap month_of

/-- `monthly_summary["Month"].tolist()` (lines 110-117): the distinct
month labels among parseable dates, sorted lexicographically because
`groupby` sorts its keys. -/
def monthly_labels (df : Store) : List String :=
  List.insertionSort strLeRel (parsedMonths df).dedup

/-- The grouped sum of `Amount` over rows in month bucket `m` with type
`ty` (`fill_value=0` makes an absent group contribute 0). -/
def month_type_sum (df : Store) (m ty : String) : ℚ :=
  ((df.filter fun t => month_of t == some m && t.type_ == ty).map Transaction.amount).sum

/-- Whether `unstack` produces a column for type `ty`: some row of that
type survived the group-by, i.e. has a parseable date. -/
def has_type_month (df : Store) (ty : String) : Bool :=
  df.any fun t => t.type_ == ty && (month_of t).isSome

/-- `monthly_summary.get(ty, pd.Series()).tolist()` (lines 118-119):
per-bucket sums when the column exists, the empty list otherwise. -/
def monthly_series (df : Store) (ty : String) : List ℚ :=
  if has_type_month df ty then
    (monthly_labels df).map fun m => month_type_sum df m ty
  else []

/-- `monthly_income` (line 118). -/
def monthly_income (df : Store) : List ℚ := monthly_series df "Income"

/-- `monthly_expense` (line 119). -/
def monthly_expense (df : Store) : List ℚ := monthly_series df "Expense"

/-! ### Storage operations (src/app.py lines 32-48, 141-202) -/

/-- The possible states of the persistent storage resource. -/
inductive FileState
  | absent
  | emptyBytes
  | csv (rows : Store)
deriving DecidableEq

/-- The errors `pd.read_csv` can raise here: `FileNotFoundError` when
the file does not exist, `pd.errors.EmptyDataError` when it has no
bytes to parse. -/
inductive ReadError
  | fileNotFound
  | emptyData
deriving DecidableEq, Repr

/-- Model of `pd.read_csv(DATA_PATH)`: a header-only or populated CSV
parses to its data rows; a zero-byte file raises `EmptyDataError`; a
missing file raises `FileNotFoundError`. -/
def read_csv : FileState → Except ReadError Store
  | .absent => .error .fileNotFound
  | .emptyBytes => .error .emptyData
  | .csv rows => .ok rows

/-- `load_data` (lines 32-37): `pd.read_csv` with only
`pd.errors.EmptyDataError` handled (returning an empty frame). -/
def load_data (fs : FileState) : Except ReadError Store :=
  match read_csv fs with
  | .ok df => .ok df
  | .error .emptyData => .ok []
  | .error e => .error e

/-- The module-level bootstrap (lines 22-25): a missing or zero-byte
data file is replaced by a header-only CSV before any request runs. -/
def ensure_data_file : FileState → FileState
  | .absent => .csv []
  | .emptyBytes => .csv []
  | .csv rows => .csv rows

/-- `save_data` (lines 40-48): load everything, append the new row,
rewrite the whole file. -/
def save_data (df : Store) (date type_ category : String) (amount : ℚ)
    (note : String) : Store :=
  df ++ [⟨date, type_, category, amount, note⟩]

/-- What the `add_expense` POST handler tells the user. -/
inductive AddOutcome
  | added
  | invalidAmount
deriving DecidableEq, Repr

/-- `add_expense` POST branch (lines 144-158): `float(amount)` inside
`try`; on success the row is saved, on `ValueError` the user is flashed
an invalid-amount message and nothing is written.  Returns the file
contents after the request together with the outcome. -/
def add_expense (store : Store) (date type_ category amount note : String) :
    Store × AddOutcome :=
  match pyFloat? amount with
  | some q => (save_data store date type_ category q note, .added)
  | none => (store, .invalidAmount)

/-- `delete_transaction` (lines 176-185): drop the row at `index` and
rewrite the file when `0 ≤ index < len(df)`, otherwise only redirect. -/
def delete_transaction (store : Store) (index : ℕ) : Store :=
  if index < store.length then store.eraseIdx index else store

/-- How an `edit_transaction` request ends. -/
inductive EditOutcome
  | updated
  | noop
  | valueError
deriving DecidableEq, Repr

/-- `edit_transaction` (lines 189-202): in range, all five fields are
overwritten and the file rewritten; `float(amount)` runs outside any
handler, so a parse failure raises before `to_csv` and the file is
untouched; out of range, the handler only redirects.  Returns the file
contents after the request together with the outcome. -/
def edit_transaction (store : Store) (index : ℕ)
    (date type_ category amount note : String) : Store × EditOutcome :=
  if index < store.length then
    match pyFloat? amount with
    | some q => (store.set index ⟨date, type_, category, q, note⟩, .updated)
    | none => (store, .valueError)
  else (store, .noop)

/-! ### Helper lemmas -/

/-- Summing a filtered-out column equals summing with the excluded rows
zeroed. -/
theorem sum_filter_amount (p : Transaction → Bool) (l : Store) :
    ((l.filter p).map Transaction.amount).sum =
      (l.map fun t => if p t then t.amount else 0).sum := by
  induction l with
  | nil => rfl
  | cons t l ih =>
      by_cases h : p t <;> simp [List.filter_cons, h, ih]

/-- `lexLe` is total. -/
theorem lexLe_total (as : List Char) : ∀ bs, lexLe as bs = true ∨ lexLe bs as = true := by
  induction as with
  | nil => intro bs; left; cases bs <;> rfl
  | cons a as ih =>
      intro bs
      cases bs with
      | nil => right; rfl
      | cons b bs =>
          simp only [lexLe]
          rcases Nat.lt_trichotomy a.toNat b.toNat with h | h | h
          · left; simp [h]
          · have h1 : ¬ a.toNat < b.toNat := by omega
            have h2 : ¬ b.toNat < a.toNat := by omega
            rcases ih bs with hle | hle
            · left; simp [h1, h2, hle]
            · right; simp [h1, h2, hle]
          · right; simp [h]

/-- `lexLe` is transitive. -/
theorem lexLe_trans (as : List Char) :
    ∀ bs cs, lexLe as bs = true → lexLe bs cs = true → lexLe as cs = true := by
  induction as with
  | nil => intro bs cs _ _; cases cs <;> rfl
  | cons a as ih =>
      intro bs cs hab hbc
      cases bs with
      | nil => simp [lexLe] at hab
      | cons b bs =>
          cases cs with
          | nil => simp [lexLe] at hbc
          | cons c cs =>
              simp only [lexLe] at hab hbc ⊢
              rcases Nat.lt_trichotomy a.toNat b.toNat with h1 | h1 | h1 <;>
                rcases Nat.lt_trichotomy b.toNat c.toNat with h2 | h2 | h2 <;>
                  first
                    | (simp only [if_pos (by omega : a.toNat < c.toNat)])
                    | · have hba : ¬ b.toNat < a.toNat := by omega
                        have hcb : ¬ c.toNat < b.toNat := by omega
                        have hac : ¬ a.toNat < c.toNat := by omega
                        have hca : ¬ c.toNat < a.toNat := by omega
                        simp only [if_neg (by omega : ¬ a.toNat < b.toNat), if_neg hba] at hab
                        simp only [if_neg (by omega : ¬ b.toNat < c.toNat), if_neg hcb] at hbc
                        simp only [if_neg hac, if_neg hca]
                        exact ih bs cs hab hbc
                    | (simp [if_neg (by omega : ¬ a.toNat < b.toNat),
                             if_pos (by omega : b.toNat < a.toNat)] at hab)
                    | (simp [if_neg (by omega : ¬ b.toNat < c.toNat),
                             if_pos (by omega : c.toNat < b.toNat)] at hbc)

instance : IsTotal String strLeRel := ⟨fun a b => lexLe_total a.data b.data⟩

instance : IsTrans String strLeRel :=
  ⟨fun a b c hab hbc => lexLe_trans a.data b.data c.data hab hbc⟩

/-- The mood status as a three-way case split on exact comparisons
(resolving the `abs` in the code's second test). -/
theorem mood_status_eq (ti te : ℚ) :
    (mood_status ti te = "bad" ↔ te > ti) ∧
    (mood_status ti te = "neutral" ↔ te ≤ ti ∧ ti - te < 2000) ∧
    (mood_status ti te = "good" ↔ te ≤ ti ∧ 2000 ≤ ti - te) := by
  have hd1 : ("bad" : String) ≠ "neutral" := by decide
  have hd2 : ("bad" : String) ≠ "good" := by decide
  have hd3 : ("neutral" : String) ≠ "bad" := by decide
  have hd4 : ("neutral" : String) ≠ "good" := by decide
  have hd5 : ("good" : String) ≠ "bad" := by decide
  have hd6 : ("good" : String) ≠ "neutral" := by decide
  unfold mood_status
  by_cases h1 : te > ti
  · rw [if_pos h1]
    exact ⟨by simp [h1],
      ⟨fun h => absurd h hd1, fun h => absurd h1 (not_lt.mpr h.1)⟩,
      ⟨fun h => absurd h hd2, fun h => absurd h1 (not_lt.mpr h.1)⟩⟩
  · have hle : te ≤ ti := le_of_not_lt h1
    have habs : |ti - te| = ti - te := abs_of_nonneg (by linarith)
    rw [if_neg h1, habs]
    by_cases h2 : ti - te < 2000
    · rw [if_pos h2]
      exact ⟨⟨fun h => absurd h hd3, fun h => absurd h h1⟩,
        by simp [hle, h2],
        ⟨fun h => absurd h hd4, fun h => absurd h2 (not_lt.mpr h.2)⟩⟩
    · rw [if_neg h2]
      exact ⟨⟨fun h => absurd h hd5, fun h => absurd h h1⟩,
        ⟨fun h => absurd h hd6, fun h => absurd h.2 h2⟩,
        by simp [hle, le_of_not_lt h2]⟩

/-- Dashboard data frames realizing the three example total pairs of
the specification. -/
def moodExampleBad : Store :=
  [⟨"2024-01-01", "Income", "Salary", 1000, ""⟩,
   ⟨"2024-01-02", "Expense", "Rent", 1500, ""⟩]

def moodExampleNeutral : Store :=
  [⟨"2024-01-01", "Income", "Salary", 5000, ""⟩,
   ⟨"2024-01-02", "Expense", "Rent", 4500, ""⟩]

def moodExampleGood : Store :=
  [⟨"2024-01-01", "Income", "Salary", 10000, ""⟩,
   ⟨"2024-01-02", "Expense", "Rent", 2000, ""⟩]

/-- C1: for every stored collection (shown on the dashboard, i.e.
nonempty), the mood is `bad` iff totalExpense > totalIncome, `neutral`
iff expenses do not exceed income and the difference is under 2000, and
`good` otherwise; and the three example total pairs of the spec are
classified bad, neutral and good respectively. -/
theorem mood_classification (df : Store) (hne : df ≠ []) :
    (dashboard_mood df = "bad" ↔ total_expense df > total_income df) ∧
    (dashboard_mood df = "neutral" ↔
      total_expense df ≤ total_income df ∧
        total_income df - total_expense df < 2000) ∧
    (dashboard_mood df = "good" ↔
      total_expense df ≤ total_income df ∧
        2000 ≤ total_income df - total_expense df) ∧
    (total_income moodExampleBad = 1000 ∧ total_expense moodExampleBad = 1500 ∧
      dashboard_mood moodExampleBad = "bad") ∧
    (total_income moodExampleNeutral = 5000 ∧ total_expense moodExampleNeutral = 4500 ∧
      dashboard_mood moodExampleNeutral = "neutral") ∧
    (total_income moodExampleGood = 10000 ∧ total_expense moodExampleGood = 2000 ∧
      dashboard_mood moodExampleGood = "good") := by
  have hII : (("Income" : String) == "Income") = true := by decide
  have hEI : (("Expense" : String) == "Income") = false := by decide
  have hIE : (("Income" : String) == "Expense") = false := by decide
  have hEE : (("Expense" : String) == "Expense") = true := by decide
  have i1 : total_income moodExampleBad = 1000 := by
    simp [total_income, moodExampleBad, List.filter_cons, hII, hEI]
  have e1 : total_expense moodExampleBad = 1500 := by
    simp [total_expense, moodExampleBad, List.filter_cons, hIE, hEE]
  have i2 : total_income moodExampleNeutral = 5000 := by
    simp [total_income, moodExampleNeutral, List.filter_cons, hII, hEI]
  have e2 : total_expense moodExampleNeutral = 4500 := by
    simp [total_expense, moodExampleNeutral, List.filter_cons, hIE, hEE]
  have i3 : total_income moodExampleGood = 10000 := by
    simp [total_income, moodExampleGood, List.filter_cons, hII, hEI]
  have e3 : total_expense moodExampleGood = 2000 := by
    simp [total_expense, moodExampleGood, List.filter_cons, hIE, hEE]
  refine ⟨(mood_status_eq _ _).1, (mood_status_eq _ _).2.1, (mood_status_eq _ _).2.2,
    ⟨i1, e1, ?_⟩, ⟨i2, e2, ?_⟩, ⟨i3, e3, ?_⟩⟩
  · show mood_status (total_income moodExampleBad) (total_expense moodExampleBad) = "bad"
    rw [i1, e1]; norm_num [mood_status]
  · show mood_status (total_income moodExampleNeutral) (total_expense moodExampleNeutral) = "neutral"
    rw [i2, e2]; norm_num [mood_status]
  · show mood_status (total_income moodExampleGood) (total_expense moodExampleGood) = "good"
    rw [i3, e3]; norm_num [mood_status]

/-- C1 witness: the classification at a concrete nonempty collection. -/
theorem mood_classification_witness :
    dashboard_mood moodExampleBad = "bad" ↔
      total_expense moodExampleBad > total_income moodExampleBad :=
  (mood_classification moodExampleBad (by simp [moodExampleBad])).1

/-- The pie chart's per-category sum, written as a sum over the whole
frame with non-matching rows zeroed. -/
theorem exp_df_filter_category (df : Store) (c : String) :
    (((exp_df df).filter fun t => t.category == c).map Transaction.amount).sum =
      (df.map fun t => if t.type_ = "Expense" ∧ t.category = c then t.amount else 0).sum := by
  rw [exp_df, List.filter_filter, sum_filter_amount]
  refine congrArg List.sum (List.map_congr_left fun t _ => ?_)
  by_cases h1 : t.type_ = "Expense" <;> by_cases h2 : t.category = c <;> simp [h1, h2]

/-- Membership in the category breakdown characterized in terms of the
raw rows. -/
theorem mem_category_breakdown (df : Store) (c : String) (q : ℚ) :
    (c, q) ∈ category_breakdown df ↔
      ((∃ t ∈ df, t.type_ = "Expense" ∧ t.category = c) ∧
        q = (df.map fun t =>
          if t.type_ = "Expense" ∧ t.category = c then t.amount else 0).sum) := by
  unfold category_breakdown
  rw [List.mem_map]
  constructor
  · rintro ⟨c2, hc2, heq⟩
    rw [Prod.mk.injEq] at heq
    obtain ⟨rfl, hq⟩ := heq
    rw [List.mem_dedup, List.mem_map] at hc2
    obtain ⟨t, ht, hcat⟩ := hc2
    rw [exp_df, List.mem_filter, beq_iff_eq] at ht
    exact ⟨⟨t, ht.1, ht.2, hcat⟩, by rw [← exp_df_filter_category]; exact hq.symm⟩
  · rintro ⟨⟨t, ht, hty, hcat⟩, hq⟩
    refine ⟨c, ?_, ?_⟩
    · rw [List.mem_dedup, List.mem_map]
      exact ⟨t, by rw [exp_df, List.mem_filter, beq_iff_eq]; exact ⟨ht, hty⟩, hcat⟩
    · rw [Prod.mk.injEq]
      exact ⟨rfl, by rw [exp_df_filter_category]; exact hq.symm⟩

/-- C3: totalIncome and totalExpense are the sums of `Amount` over the
rows of the matching kind, balance is their difference, and the
category breakdown maps exactly the categories of Expense rows to their
summed amounts (with distinct keys), and is empty when no Expense rows
exist. -/
theorem totals_and_category_breakdown (df : Store) :
    total_income df = (df.map fun t => if t.type_ = "Income" then t.amount else 0).sum ∧
    total_expense df = (df.map fun t => if t.type_ = "Expense" then t.amount else 0).sum ∧
    balance df = total_income df - total_expense df ∧
    ((category_breakdown df).map Prod.fst).Nodup ∧
    (∀ c q, (c, q) ∈ category_breakdown df ↔
      ((∃ t ∈ df, t.type_ = "Expense" ∧ t.category = c) ∧
        q = (df.map fun t =>
          if t.type_ = "Expense" ∧ t.category = c then t.amount else 0).sum)) ∧
    ((∀ t ∈ df, t.type_ ≠ "Expense") → category_breakdown df = []) := by
  refine ⟨?_, ?_, rfl, ?_, fun c q => mem_category_breakdown df c q, ?_⟩
  · rw [total_income, sum_filter_amount]
    refine congrArg List.sum (List.map_congr_left fun t _ => ?_)
    by_cases h : t.type_ = "Income" <;> simp [h]
  · rw [total_expense, sum_filter_amount]
    refine congrArg List.sum (List.map_congr_left fun t _ => ?_)
    by_cases h : t.type_ = "Expense" <;> simp [h]
  · have hkeys : (category_breakdown df).map Prod.fst =
        ((exp_df df).map Transaction.category).dedup := by
      simp [category_breakdown, List.map_map, Function.comp_def]
    rw [hkeys]
    exact List.nodup_dedup _
  · intro h
    have he : exp_df df = [] := List.filter_eq_nil_iff.mpr fun t ht => by simp [h t ht]
    simp [category_breakdown, he]

/-- C3 witness: the breakdown of a collection with no Expense rows. -/
theorem totals_and_category_breakdown_witness : category_breakdown [] = [] :=
  (totals_and_category_breakdown []).2.2.2.2.2 (by simp)

/-- C4: Append with a non-numeric amount surfaces the invalid-amount
condition and persists nothing; with a numeric amount the parsed row is
appended at the end of the rewritten file. -/
theorem append_amount_validation (store : Store)
    (date type_ category amount note : String) :
    (pyFloat? amount = none →
      add_expense store date type_ category amount note =
        (store, AddOutcome.invalidAmount)) ∧
    ∀ q : ℚ, pyFloat? amount = some q →
      add_expense store date type_ category amount note =
        (store ++ [⟨date, type_, category, q, note⟩], AddOutcome.added) := by
  constructor
  · intro h
    simp [add_expense, h]
  · intro q h
    simp [add_expense, h, save_data]

/-- A small concrete collection used by the operation witnesses. -/
def opsStore : Store := [⟨"2024-03-01", "Income", "Salary", 250, "x"⟩]

/-- C4 witness: a rejected and an accepted Append on a concrete store. -/
theorem append_amount_validation_witness :
    add_expense opsStore "2024-03-02" "Expense" "Food" "abc" "n" =
      (opsStore, AddOutcome.invalidAmount) ∧
    add_expense opsStore "2024-03-02" "Expense" "Food" "100" "n" =
      (opsStore ++ [⟨"2024-03-02", "Expense", "Food", 100, "n"⟩], AddOutcome.added) := by
  constructor
  · exact (append_amount_validation opsStore "2024-03-02" "Expense" "Food" "abc" "n").1
      (by decide)
  · refine (append_amount_validation opsStore "2024-03-02" "Expense" "Food" "100" "n").2
      100 ?_
    have h : pyFloat? "100" = some (((100 : ℕ) : ℚ) * (10 : ℚ) ^ (0 : ℤ)) := rfl
    rw [h]
    norm_num

/-- C5: DeleteAt on an in-range index removes exactly that row, shifting
the later rows down by one; on an out-of-range index it is a silent
no-op leaving the collection unchanged. -/
theorem delete_at_spec (store : Store) (i : ℕ) :
    (i < store.length →
      (delete_transaction store i).length = store.length - 1 ∧
      ∀ j : ℕ, (delete_transaction store i)[j]? =
        if j < i then store[j]? else store[j + 1]?) ∧
    (store.length ≤ i → delete_transaction store i = store) := by
  constructor
  · intro hi
    rw [delete_transaction, if_pos hi]
    exact ⟨by rw [List.length_eraseIdx, if_pos hi],
      fun j => List.getElem?_eraseIdx store i j⟩
  · intro hi
    rw [delete_transaction, if_neg (not_lt.mpr hi)]

/-- C5 witness: an in-range and an out-of-range delete on a concrete
store. -/
theorem delete_at_spec_witness :
    (delete_transaction opsStore 0).length = opsStore.length - 1 ∧
    delete_transaction opsStore 5 = opsStore :=
  ⟨((delete_at_spec opsStore 0).1 (by simp [opsStore])).1,
    (delete_at_spec opsStore 5).2 (by simp [opsStore])⟩

/-- C6: EditAt on an in-range index with a numeric amount overwrites all
five fields of that row (amount parsed), keeps the length, and leaves
every other row unchanged; on an out-of-range index it is a silent
no-op. -/
theorem edit_at_spec (store : Store) (i : ℕ)
    (date type_ category amount note : String) (q : ℚ) :
    (i < store.length → pyFloat? amount = some q →
      (edit_transaction store i date type_ category amount note).2 =
        EditOutcome.updated ∧
      (edit_transaction store i date type_ category amount note).1.length =
        store.length ∧
      (edit_transaction store i date type_ category amount note).1[i]? =
        some ⟨date, type_, category, q, note⟩ ∧
      ∀ j : ℕ, j ≠ i →
        (edit_transaction store i date type_ category amount note).1[j]? =
          store[j]?) ∧
    (store.length ≤ i →
      edit_transaction store i date type_ category amount note =
        (store, EditOutcome.noop)) := by
  constructor
  · intro hi hq
    have he : edit_transaction store i date type_ category amount note =
        (store.set i ⟨date, type_, category, q, note⟩, EditOutcome.updated) := by
      simp [edit_transaction, hi, hq]
    rw [he]
    refine ⟨rfl, List.length_set store i _, ?_, ?_⟩
    · rw [List.getElem?_set, if_pos rfl, if_pos hi]
    · intro j hj
      rw [List.getElem?_set, if_neg fun h => hj h.symm]
  · intro hi
    simp [edit_transaction, not_lt.mpr hi]

/-- C6 witness: an in-range edit and an out-of-range edit on a
concrete store. -/
theorem edit_at_spec_witness :
    (edit_transaction opsStore 0 "2024-04-01" "Expense" "Food" "100" "m").1[0]? =
      some ⟨"2024-04-01", "Expense", "Food", 100, "m"⟩ ∧
    edit_transaction opsStore 5 "2024-04-01" "Expense" "Food" "100" "m" =
      (opsStore, EditOutcome.noop) := by
  have hq : pyFloat? "100" = some 100 := by
    have h : pyFloat? "100" = some (((100 : ℕ) : ℚ) * (10 : ℚ) ^ (0 : ℤ)) := rfl
    rw [h]; norm_num
  exact ⟨(((edit_at_spec opsStore 0 "2024-04-01" "Expense" "Food" "100" "m" 100).1
      (by simp [opsStore]) hq).2.2).1,
    (edit_at_spec opsStore 5 "2024-04-01" "Expense" "Food" "100" "m" 100).2
      (by simp [opsStore])⟩

/-- C7: Append of a transaction with numeric amount followed by Load
yields the stored rows with the new row, equal to the given one in all
five fields, as the last element. -/
theorem append_roundtrip (store : Store)
    (date type_ category amount note : String) (q : ℚ)
    (hq : pyFloat? amount = some q) :
    load_data (FileState.csv (add_expense store date type_ category amount note).1) =
      Except.ok (store ++ [⟨date, type_, category, q, note⟩]) ∧
    (add_expense store date type_ category amount note).1.getLast? =
      some ⟨date, type_, category, q, note⟩ := by
  have h : (add_expense store date type_ category amount note).1 =
      store ++ [⟨date, type_, category, q, note⟩] := by
    simp [add_expense, hq, save_data]
  rw [h]
  exact ⟨rfl, List.getLast?_concat _⟩

/-- C7 witness: the round trip at a concrete store and transaction. -/
theorem append_roundtrip_witness :
    (add_expense opsStore "2024-03-02" "Expense" "Food" "100" "n").1.getLast? =
      some ⟨"2024-03-02", "Expense", "Food", 100, "n"⟩ := by
  have hq : pyFloat? "100" = some 100 := by
    have h : pyFloat? "100" = some (((100 : ℕ) : ℚ) * (10 : ℚ) ^ (0 : ℤ)) := rfl
    rw [h]; norm_num
  exact (append_roundtrip opsStore "2024-03-02" "Expense" "Food" "100" "n" 100 hq).2

/-- C9: EditAt on an in-range index with a non-numeric amount raises
before any rewrite, leaving the persisted collection unchanged; the
outcome is an unhandled error, distinct from the silent out-of-range
no-op and from a completed update. -/
theorem edit_invalid_amount_atomic (store : Store) (i : ℕ)
    (date type_ category amount note : String)
    (hi : i < store.length) (hn : pyFloat? amount = none) :
    edit_transaction store i date type_ category amount note =
      (store, EditOutcome.valueError) ∧
    EditOutcome.valueError ≠ EditOutcome.noop ∧
    EditOutcome.valueError ≠ EditOutcome.updated :=
  ⟨by simp [edit_transaction, hi, hn], by decide, by decide⟩

/-- C9 witness: an in-range edit with a malformed amount on a concrete
store. -/
theorem edit_invalid_amount_atomic_witness :
    edit_transaction opsStore 0 "2024-04-01" "Expense" "Food" "abc" "m" =
      (opsStore, EditOutcome.valueError) :=
  (edit_invalid_amount_atomic opsStore 0 "2024-04-01" "Expense" "Food" "abc" "m"
    (by simp [opsStore]) (by decide)).1

/-- C10: a transaction whose kind is neither Income nor Expense is
persisted and counted in the length, but contributes to no total, to no
balance, and never appears in the category breakdown. -/
theorem kind_unvalidated (store : Store)
    (date ty category amount note : String) (q : ℚ)
    (hq : pyFloat? amount = some q)
    (h1 : ty ≠ "Income") (h2 : ty ≠ "Expense") :
    (add_expense store date ty category amount note).1.length = store.length + 1 ∧
    (add_expense store date ty category amount note).2 = AddOutcome.added ∧
    total_income (add_expense store date ty category amount note).1 =
      total_income store ∧
    total_expense (add_expense store date ty category amount note).1 =
      total_expense store ∧
    balance (add_expense store date ty category amount note).1 = balance store ∧
    category_breakdown (add_expense store date ty category amount note).1 =
      category_breakdown store := by
  have h : (add_expense store date ty category amount note).1 =
      store ++ [⟨date, ty, category, q, note⟩] := by
    simp [add_expense, hq, save_data]
  have hti : total_income (store ++ [⟨date, ty, category, q, note⟩]) =
      total_income store := by
    rw [total_income, total_income, List.filter_append]
    simp [List.filter_cons, h1]
  have hte : total_expense (store ++ [⟨date, ty, category, q, note⟩]) =
      total_expense store := by
    rw [total_expense, total_expense, List.filter_append]
    simp [List.filter_cons, h2]
  have hexp : exp_df (store ++ [⟨date, ty, category, q, note⟩]) = exp_df store := by
    rw [exp_df, exp_df, List.filter_append]
    simp [List.filter_cons, h2]
  refine ⟨by rw [h]; simp, by simp [add_expense, hq], by rw [h]; exact hti,
    by rw [h]; exact hte, ?_, ?_⟩
  · rw [balance, balance, h, hti, hte]
  · rw [h, category_breakdown, category_breakdown, hexp]

/-- C10 witness: appending a row of kind `Transfer` to a concrete
store. -/
theorem kind_unvalidated_witness :
    total_income (add_expense opsStore "2024-03-02" "Transfer" "Misc" "100" "n").1 =
      total_income opsStore := by
  have hq : pyFloat? "100" = some 100 := by
    have h : pyFloat? "100" = some (((100 : ℕ) : ℚ) * (10 : ℚ) ^ (0 : ℤ)) := rfl
    rw [h]; norm_num
  exact (kind_unvalidated opsStore "2024-03-02" "Transfer" "Misc" "100" "n" 100 hq
    (by decide) (by decide)).2.2.1

/-- Two months entered in chronological order: their first-appearance
order (`Jan`, `Feb`) differs from the lexicographic order of the labels
(`"Feb 2024" < "Jan 2024"`), and there are no Expense rows at all. -/
def c2_store : Store :=
  [⟨"2024-01-15", "Income", "Salary", 100, ""⟩,
   ⟨"2024-02-10", "Income", "Salary", 50, ""⟩]

/-- The per-bucket sum written as a sum over the whole frame. -/
theorem month_type_sum_eq (df : Store) (m ty : String) :
    month_type_sum df m ty =
      (df.map fun t =>
        if month_of t = some m ∧ t.type_ = ty then t.amount else 0).sum := by
  rw [month_type_sum, sum_filter_amount]
  refine congrArg List.sum (List.map_congr_left fun t _ => ?_)
  by_cases hm : month_of t = some m <;> by_cases ht : t.type_ = ty <;> simp [hm, ht]

/-- C2 counterexample: the month buckets are NOT ordered by first
appearance (the group-by sorts its keys, so `"Feb 2024"` precedes
`"Jan 2024"` lexicographically although January appears first), and a
kind with no rows anywhere yields an empty series, not per-bucket
zeros. -/
theorem monthly_series_spec_counterexample :
    parsedMonths c2_store = ["Jan 2024", "Feb 2024"] ∧
    monthly_labels c2_store = ["Feb 2024", "Jan 2024"] ∧
    monthly_labels c2_store ≠ ["Jan 2024", "Feb 2024"] ∧
    monthly_income c2_store = [50, 100] ∧
    monthly_expense c2_store = [] ∧
    monthly_expense c2_store ≠ [0, 0] := by
  have hlab : monthly_labels c2_store = ["Feb 2024", "Jan 2024"] := by decide
  have hhasI : has_type_month c2_store "Income" = true := by decide
  have hhasE : has_type_month c2_store "Expense" = false := by decide
  have h1 : c2_store.filter
      (fun t => month_of t == some "Feb 2024" && t.type_ == "Income") =
      [⟨"2024-02-10", "Income", "Salary", 50, ""⟩] := by decide
  have h2 : c2_store.filter
      (fun t => month_of t == some "Jan 2024" && t.type_ == "Income") =
      [⟨"2024-01-15", "Income", "Salary", 100, ""⟩] := by decide
  refine ⟨by decide, hlab, by decide, ?_, ?_, ?_⟩
  · rw [monthly_income, monthly_series, if_pos hhasI, hlab]
    rw [List.map_cons, List.map_cons, List.map_nil]
    rw [month_type_sum, h1, month_type_sum, h2]
    simp
  · rw [monthly_expense, monthly_series, if_neg (by rw [hhasE]; exact Bool.false_ne_true)]
  · rw [monthly_expense, monthly_series, if_neg (by rw [hhasE]; exact Bool.false_ne_true)]
    simp

/-- C2 (amended): one bucket per distinct month+year among rows whose
date parses; buckets ordered lexicographically (ascending) by their
`"%b %Y"` label — the group-by sorts keys, so NOT by first appearance;
per bucket, the sum of Income and of Expense amounts (zero when the
kind has no rows in that bucket), except that a kind with no rows in
any bucket yields an empty series rather than zeros; rows with
unparseable dates are excluded from these series only. -/
theorem monthly_series_amended (df : Store) :
    (monthly_labels df).Nodup ∧
    List.Sorted strLeRel (monthly_labels df) ∧
    (∀ m : String, m ∈ monthly_labels df ↔ ∃ t ∈ df, month_of t = some m) ∧
    (∀ ty : String, has_type_month df ty = true ↔
      ∃ t ∈ df, t.type_ = ty ∧ (month_of t).isSome = true) ∧
    (∀ ty : String, has_type_month df ty = true →
      monthly_series df ty = (monthly_labels df).map fun m =>
        (df.map fun t =>
          if month_of t = some m ∧ t.type_ = ty then t.amount else 0).sum) ∧
    (∀ ty : String, has_type_month df ty = false → monthly_series df ty = []) ∧
    monthly_income df = monthly_series df "Income" ∧
    monthly_expense df = monthly_series df "Expense" := by
  refine ⟨?_, ?_, ?_, ?_, ?_, ?_, rfl, rfl⟩
  · exact List.Perm.nodup (List.perm_insertionSort strLeRel _).symm
      (List.nodup_dedup _)
  · exact List.sorted_insertionSort strLeRel _
  · exact fun m => ((List.perm_insertionSort strLeRel _).mem_iff).trans
      ((List.mem_dedup).trans List.mem_filterMap)
  · intro ty
    simp [has_type_month, List.any_eq_true, Bool.and_eq_true, beq_iff_eq]
  · intro ty h
    rw [monthly_series, if_pos h]
    exact List.map_congr_left fun m _ => month_type_sum_eq df m ty
  · intro ty h
    rw [monthly_series, if_neg (by rw [h]; exact Bool.false_ne_true)]

/-- C2 witness for the amended claim: concrete consequences at
`c2_store`. -/
theorem monthly_series_amended_witness :
    monthly_series c2_store "Expense" = [] :=
  (monthly_series_amended c2_store).2.2.2.2.2.1 "Expense" (by decide)

/-- C8 counterexample: Load on an absent storage resource fails with
`FileNotFoundError` (only `EmptyDataError` is handled), rather than
returning an empty collection. -/
theorem load_absent_counterexample :
    load_data FileState.absent = Except.error ReadError.fileNotFound ∧
    load_data FileState.absent ≠ Except.ok []  := by
  refine ⟨rfl, ?_⟩
  intro h
  simp [load_data, read_csv] at h

/-- C8 (amended): Load returns an empty sequence when storage has zero
bytes (the `EmptyDataError` case) and returns the stored rows in file
order, unvalidated and unchanged, for parsed storage; on an absent
storage resource Load itself fails with `FileNotFoundError` — absence
is only averted by the startup bootstrap, which (re)creates a missing
or zero-byte file, after which Load always succeeds. -/
theorem load_data_spec (fs : FileState) (rows : Store) :
    load_data FileState.emptyBytes = Except.ok [] ∧
    load_data (FileState.csv rows) = Except.ok rows ∧
    load_data FileState.absent = Except.error ReadError.fileNotFound ∧
    ∃ rows2 : Store, load_data (ensure_data_file fs) = Except.ok rows2 := by
  refine ⟨rfl, rfl, rfl, ?_⟩
  cases fs with
  | absent => exact ⟨[], rfl⟩
  | emptyBytes => exact ⟨[], rfl⟩
  | csv rows3 => exact ⟨rows3, rfl⟩

end Speza
